import Mathlib

/-!
Verification development for the Proma chat client core
(`packages/core/src/providers/*` and `apps/electron/src/main/lib/*`).

The TypeScript sources are shallowly embedded: pure functions become Lean
functions, the stateful send flow becomes a function from an explicit
scenario (the outcomes of the injected collaborators) to the list of store
appends and push events it produces.  `JSON.parse` is a platform primitive,
so SSE parsing is embedded as a function of its parse result (`Option Json`:
`none` = malformed input that made `JSON.parse` throw).
-/

namespace Proma

/-- Message roles of the unified chat model (`@proma/shared` `ChatMessage.role`). -/
inductive Role where
  | user
  | assistant
  | system
deriving DecidableEq, Repr

/-- A file attachment reference (`FileAttachment`): only the fields the
embedded code inspects. -/
structure FileAttachment where
  mediaType : String
  localPath : String
deriving DecidableEq, Repr

/-- Base64 image data produced by the injected attachment reader
(`ImageAttachmentData` in `packages/core/src/providers/types.ts`). -/
structure ImageAttachmentData where
  mediaType : String
  data : String
deriving DecidableEq, Repr

/-- `ChatMessage` from `@proma/shared` as used by `chat-service.ts` and the
adapters.  Optional TS fields become `Option`/defaulted fields; the optional
`attachments` array is a list (`[]` plays the role of `undefined`, which the
code only ever distinguishes via `length > 0` checks). -/
structure ChatMessage where
  id : String
  role : Role
  content : String
  createdAt : Nat
  model : Option String := none
  reasoning : Option String := none
  attachments : List FileAttachment := []
  stopped : Bool := false
deriving DecidableEq, Repr

/-- The `contextLength` setting: a TS `number` (embedded as `Int`, since the
code guards `contextLength >= 0` at runtime) or the sentinel `'infinite'`;
`Option` models the possibly-`undefined` field. -/
inductive CtxLen where
  | num (n : Int)
  | infinite
deriving DecidableEq, Repr

/-- The backward walk of `filterHistory` (chat-service.ts lines 82-92) over
the reversed history: collect every message, count a round at each
`user`-role message, and stop (keeping that message) once `roundCount`
reaches `contextLength`.  The TS loop runs `i` from the end and `unshift`s;
here the reversed list is consumed front-to-back and the caller reverses the
result, which produces the same list. -/
def roundTake (contextLength : Int) : Nat → List ChatMessage → List ChatMessage
  | _, [] => []
  | roundCount, msg :: rest =>
    if msg.role = Role.user then
      if (roundCount : Int) + 1 ≥ contextLength then [msg]
      else msg :: roundTake contextLength (roundCount + 1) rest
    else msg :: roundTake contextLength roundCount rest

/-- The divider stage of `filterHistory` (chat-service.ts lines 67-74, the
local `filtered`): when the divider list is non-empty, find the first
occurrence of its *last* id and keep only the messages strictly after it; a
dangling id (or no dividers) keeps the whole history. -/
def dividerFiltered (messageHistory : List ChatMessage)
    (contextDividers : List String) : List ChatMessage :=
  match contextDividers.getLast? with
  | none => messageHistory
  | some lastDividerId =>
    match messageHistory.findIdx? (fun msg => msg.id == lastDividerId) with
    | some dividerIndex => messageHistory.drop (dividerIndex + 1)
    | none => messageHistory

/-- `filterHistory` (chat-service.ts lines 60-98): divider trimming, then
round-count trimming for a finite non-negative `contextLength`; `'infinite'`
or `undefined` keeps the divider-trimmed list; `0` yields the empty list. -/
def filterHistory (messageHistory : List ChatMessage) (contextDividers : List String)
    (contextLength : Option CtxLen) : List ChatMessage :=
  let filtered := dividerFiltered messageHistory contextDividers
  match contextLength with
  | some (CtxLen.num n) =>
    if 0 ≤ n then
      if n = 0 then []
      else (roundTake n 0 filtered.reverse).reverse
    else filtered
  | _ => filtered

/-! ### JSON values and field access

The adapters call `JSON.parse` and then walk the result with optional
chaining.  `JSON.parse` itself is a platform primitive, so the embedding
takes its outcome as input: `none` means the line was not valid JSON (the
`catch` branch), `some j` is the parsed value.  Field access `x?.f` becomes
`getField`, which yields `none` on non-objects and missing keys. -/

/-- A JSON value. -/
inductive Json where
  | null
  | bool (b : Bool)
  | num (n : Int)
  | str (s : String)
  | arr (elems : List Json)
  | obj (fields : List (String × Json))
deriving Repr

/-- Look a key up in an object's field list (first match, like JS property
access on objects produced by `JSON.parse`); non-objects have no fields. -/
def getField : Json → String → Option Json
  | Json.obj fields, key =>
    match fields.find? (fun f => f.1 == key) with
    | some f => some f.2
    | none => none
  | _, _ => none

/-- Field access on an optional value (`x?.f`). -/
def getFieldOpt (j : Option Json) (key : String) : Option Json :=
  match j with
  | some v => getField v key
  | none => none

/-- Extract a string (fields declared `string` in the adapters' TS types). -/
def getStr : Option Json → Option String
  | some (Json.str s) => some s
  | _ => none

/-- Extract an array. -/
def getArr : Option Json → Option (List Json)
  | some (Json.arr l) => some l
  | _ => none

/-- JS truthiness of an optional JSON value (used for `if (part.thought)`
and the `!parts` guard). -/
def truthy : Option Json → Bool
  | none => false
  | some Json.null => false
  | some (Json.bool b) => b
  | some (Json.num n) => n != 0
  | some (Json.str s) => s != ""
  | some (Json.arr _) => true
  | some (Json.obj _) => true

/-! ### Normalized stream events (`packages/core/src/providers/types.ts`) -/

/-- `StreamEvent`: the only vocabulary an adapter may emit. -/
inductive StreamEvent where
  | chunk (delta : String)
  | reasoning (delta : String)
  | error (error : String)
  | done
deriving DecidableEq, Repr

/-! ### Anthropic adapter (`packages/core/src/providers/anthropic-adapter.ts`) -/

/-- An Anthropic content block: text or base64 image. -/
inductive AnthropicContentBlock where
  | text (text : String)
  | image (mediaType : String) (data : String)
deriving DecidableEq, Repr

/-- Anthropic message content: a plain string or a block list. -/
inductive AnthropicContent where
  | str (s : String)
  | blocks (blocks : List AnthropicContentBlock)
deriving DecidableEq, Repr

/-- Anthropic's role vocabulary (no `system`). -/
inductive AnthropicRole where
  | user
  | assistant
deriving DecidableEq, Repr

/-- A wire message for the Anthropic Messages API. -/
structure AnthropicMessage where
  role : AnthropicRole
  content : AnthropicContent
deriving DecidableEq, Repr

/-- `buildImageBlocks`: map image attachments to Anthropic image blocks. -/
def buildImageBlocks (imageData : List ImageAttachmentData) : List AnthropicContentBlock :=
  imageData.map (fun img => AnthropicContentBlock.image img.mediaType img.data)

/-- `buildMessageContent`: plain text when there are no images, otherwise
image blocks followed by a text block when the text is non-empty (the TS
`if (text)` truthiness check). -/
def buildMessageContent (text : String) (imageData : List ImageAttachmentData) :
    AnthropicContent :=
  if imageData.length = 0 then AnthropicContent.str text
  else AnthropicContent.blocks
    (buildImageBlocks imageData ++ if text != "" then [AnthropicContentBlock.text text] else [])

/-- `toAnthropicMessages`: drop `system` messages from the (already
windowed) history, relabel roles, inline historical user attachments, and
append the current user message built from `userMessage` and the current
attachments.  `readImageAttachments` is the injected reader. -/
def toAnthropicMessages (history : List ChatMessage) (userMessage : String)
    (attachments : List FileAttachment)
    (readImageAttachments : List FileAttachment → List ImageAttachmentData) :
    List AnthropicMessage :=
  ((history.filter (fun msg => msg.role ≠ Role.system)).map (fun msg =>
    let role := if msg.role = Role.assistant then AnthropicRole.assistant else AnthropicRole.user
    if msg.role = Role.user ∧ msg.attachments.length > 0 then
      { role := role,
        content := buildMessageContent msg.content (readImageAttachments msg.attachments) }
    else { role := role, content := AnthropicContent.str msg.content }))
  ++ [{ role := AnthropicRole.user,
        content := buildMessageContent userMessage (readImageAttachments attachments) }]

/-- `AnthropicAdapter.parseSSELine` as a function of the `JSON.parse`
outcome: on `content_block_delta` events, a non-empty `delta.thinking` under
`delta.type === 'thinking_delta'` yields one `reasoning` event, otherwise a
non-empty `delta.text` yields one `chunk` event; everything else (including
a failed parse, the `catch` branch) yields `[]`. -/
def anthropicParseSSELine (parsed : Option Json) : List StreamEvent :=
  match parsed with
  | none => []
  | some event =>
    if getStr (getField event "type") == some "content_block_delta" then
      let delta := getField event "delta"
      if getStr (getFieldOpt delta "type") == some "thinking_delta"
          ∧ truthy (getFieldOpt delta "thinking") then
        match getStr (getFieldOpt delta "thinking") with
        | some thinking => [StreamEvent.reasoning thinking]
        | none => []
      else if truthy (getFieldOpt delta "text") then
        match getStr (getFieldOpt delta "text") with
        | some text => [StreamEvent.chunk text]
        | none => []
      else []
    else []

/-! ### Google adapter (`packages/core/src/providers/google-adapter.ts`) -/

/-- `GoogleAdapter.parseSSELine` as a function of the `JSON.parse` outcome:
walk `candidates[0].content.parts`; each part with a non-empty `text`
yields one event — `reasoning` when `part.thought` is truthy, `chunk`
otherwise; a missing/falsy `parts` or a failed parse yields `[]`. -/
def googleParseSSELine (parsed : Option Json) : List StreamEvent :=
  match parsed with
  | none => []
  | some data =>
    let candidates := getArr (getField data "candidates")
    let first := match candidates with
      | some (c :: _) => some c
      | _ => none
    let parts := getArr (getFieldOpt (getFieldOpt first "content") "parts")
    match parts with
    | none => []
    | some partList =>
      partList.foldr (fun part events =>
        if truthy (getField part "text") then
          match getStr (getField part "text") with
          | some text =>
            (if truthy (getField part "thought") then StreamEvent.reasoning text
             else StreamEvent.chunk text) :: events
          | none => events
        else events) []

/-! ### Chat turn orchestrator (`apps/electron/src/main/lib/chat-service.ts`)

`sendMessage` interleaves pure control flow with injected collaborators
(channel lookup, key decryption, the conversation store, the network stream
and the `webContents` push channel).  The embedding makes each
collaborator's outcome an explicit field of a `SendScenario` and computes
the observable result: the messages appended to the store, the push events
sent, and whether the call rejected with an uncaught exception.
`streamSSE` lives in `@proma/core` outside `src/`; per the spec (§4.2) it
either resolves with the accumulated `{content, reasoning}` after having
delivered `chunk`/`reasoning` events through `onEvent`, or throws (abort,
transport error, non-2xx status) — `StreamResult` captures exactly that
interface. -/

/-- Events pushed over the IPC channel (`CHAT_IPC_CHANNELS.STREAM_*`),
restricted to the payload fields the claims are about. -/
inductive PushEvent where
  | streamChunk (delta : String)
  | streamReasoning (delta : String)
  | streamComplete (messageId : Option String)
  | streamError (error : String)
deriving DecidableEq, Repr

/-- A terminal event for a turn: completion or error. -/
def PushEvent.isTerminal : PushEvent → Bool
  | PushEvent.streamComplete _ => true
  | PushEvent.streamError _ => true
  | _ => false

/-- Outcome of the `await streamSSE(...)` call: it resolves with the
accumulated content and reasoning, or it throws with an error message
(`error.message`, or the fallback text for non-`Error` throwables). -/
inductive StreamResult where
  | ok (content : String) (reasoning : String)
  | thrown (msg : String)
deriving DecidableEq, Repr

/-- One execution of `sendMessage`, with every injected outcome explicit.
`events` are the `chunk`/`reasoning` stream events `streamSSE` delivered to
`onEvent` before resolving or throwing (the `done`/`error` variants are
ignored by the `onEvent` switch).  `aborted` is `controller.signal.aborted`
as observed by the `catch` block.  The three `append*Throws` flags are the
fallibility of the corresponding `appendMessage` disk writes
(`conversation-manager.ts` rethrows append failures). -/
structure SendScenario where
  channelExists : Bool
  decryptOk : Bool
  appendUserThrows : Bool
  events : List StreamEvent
  result : StreamResult
  aborted : Bool
  appendAssistantThrows : Bool
  appendPartialThrows : Bool
  userMessage : String
  modelId : String
  userMsgId : String
  assistantMsgId : String
  tUser : Nat
  tAssistant : Nat
  attachments : List FileAttachment

/-- `accumulatedContent`: concatenation of the `chunk` deltas delivered so
far (the `onEvent` switch in `sendMessage`). -/
def accContent (events : List StreamEvent) : String :=
  events.foldl (fun acc e =>
    match e with
    | StreamEvent.chunk delta => acc ++ delta
    | _ => acc) ""

/-- `accumulatedReasoning`: concatenation of the `reasoning` deltas. -/
def accReasoning (events : List StreamEvent) : String :=
  events.foldl (fun acc e =>
    match e with
    | StreamEvent.reasoning delta => acc ++ delta
    | _ => acc) ""

/-- The `chunk`/`reasoning` push events relayed by `onEvent`, in stream
order; other event kinds are not relayed. -/
def pushedStreamEvents (events : List StreamEvent) : List PushEvent :=
  events.filterMap (fun e =>
    match e with
    | StreamEvent.chunk delta => some (PushEvent.streamChunk delta)
    | StreamEvent.reasoning delta => some (PushEvent.streamReasoning delta)
    | _ => none)

/-- Observable result of one `sendMessage` execution. -/
structure SendOutput where
  appended : List ChatMessage
  events : List PushEvent
  threw : Bool
deriving DecidableEq, Repr

/-- The user message `sendMessage` appends before the network call
(chat-service.ts lines 142-149). -/
def mkUserMsg (s : SendScenario) : ChatMessage :=
  { id := s.userMsgId, role := Role.user, content := s.userMessage,
    createdAt := s.tUser, attachments := s.attachments }

/-- The partial assistant message written in the abort branch
(chat-service.ts lines 234-243): accumulated content, `stopped := true`,
reasoning only when non-empty. -/
def mkPartialMsg (s : SendScenario) : ChatMessage :=
  { id := s.assistantMsgId, role := Role.assistant, content := accContent s.events,
    createdAt := s.tAssistant, model := some s.modelId,
    reasoning := if accReasoning s.events == "" then none else some (accReasoning s.events),
    stopped := true }

/-- The `catch` block of `sendMessage` (lines 227-271): under an aborted
signal, persist the accumulated partial content (if any) and emit a
completion event — never an error event; otherwise emit one error event.
An `appendMessage` failure inside this block escapes uncaught. -/
def handleCatch (s : SendScenario) (userMsg : ChatMessage) (pushed : List PushEvent)
    (errMsg : String) : SendOutput :=
  if s.aborted then
    if accContent s.events != "" then
      if s.appendPartialThrows then
        { appended := [userMsg], events := pushed, threw := true }
      else
        { appended := [userMsg, mkPartialMsg s],
          events := pushed ++ [PushEvent.streamComplete (some s.assistantMsgId)],
          threw := false }
    else
      { appended := [userMsg],
        events := pushed ++ [PushEvent.streamComplete none], threw := false }
  else
    { appended := [userMsg],
      events := pushed ++ [PushEvent.streamError errMsg], threw := false }

/-- `sendMessage` (chat-service.ts lines 108-275): resolve channel, decrypt
the key (configuration errors emit one error event and write nothing),
append the user message, stream, then persist and emit the terminal event
per outcome.  The swallowed `updateConversationMeta` bookkeeping calls do
not change the appended-message or event lists, so they do not appear in
the output (the store-level embedding below covers them). -/
def sendMessage (s : SendScenario) : SendOutput :=
  if !s.channelExists then
    { appended := [], events := [PushEvent.streamError "渠道不存在"], threw := false }
  else if !s.decryptOk then
    { appended := [], events := [PushEvent.streamError "解密 API Key 失败"], threw := false }
  else if s.appendUserThrows then
    { appended := [], events := [], threw := true }
  else
    let userMsg := mkUserMsg s
    let pushed := pushedStreamEvents s.events
    match s.result with
    | StreamResult.ok content reasoning =>
      if s.appendAssistantThrows then
        handleCatch s userMsg pushed "追加消息失败"
      else
        { appended := [userMsg,
            { id := s.assistantMsgId, role := Role.assistant, content := content,
              createdAt := s.tAssistant, model := some s.modelId,
              reasoning := if reasoning == "" then none else some reasoning }],
          events := pushed ++ [PushEvent.streamComplete (some s.assistantMsgId)],
          threw := false }
    | StreamResult.thrown msg => handleCatch s userMsg pushed msg

/-! ### Title generation (`generateTitle`, chat-service.ts lines 306-345) -/

/-- `MAX_TITLE_LENGTH`. -/
def MAX_TITLE_LENGTH : Nat := 20

/-- The quote characters stripped by the cleanup regex
`/^["'""'']+|["'""'']+$/g`: ASCII double and single quotes and the four
curly quote characters. -/
def isQuoteChar (c : Char) : Bool :=
  c = '"' || c = Char.ofNat 39 || c = '“' || c = '”' || c = '‘' || c = '’'

/-- Drop the longest suffix satisfying `p` (helper for regex `[..]+$`). -/
def dropEndWhile (p : Char → Bool) (cs : List Char) : List Char :=
  (cs.reverse.dropWhile p).reverse

/-- JS `String.prototype.trim` on a character list. -/
def trimChars (cs : List Char) : List Char :=
  dropEndWhile Char.isWhitespace (cs.dropWhile Char.isWhitespace)

/-- The title cleanup `title.trim().replace(/^["'""'']+|["'""'']+$/g, '').trim()`:
trim, strip the leading and trailing runs of quote characters, trim again. -/
def cleanTitle (cs : List Char) : List Char :=
  trimChars (dropEndWhile isQuoteChar ((trimChars cs).dropWhile isQuoteChar))

/-- One execution of `generateTitle`, with the injected outcomes explicit.
`fetchResult` is the resolution of `fetchTitle` (in `@proma/core`, outside
`src/`; per the adapter contract it yields the provider's title text or
null/throws — `none` covers the null, request-failure and parse-failure
cases, which `generateTitle` treats alike). -/
structure TitleScenario where
  channelExists : Bool
  decryptOk : Bool
  fetchResult : Option String

/-- `generateTitle`: null on any failure; on success the fetched text is
cleaned of surrounding quotes, truncated to `MAX_TITLE_LENGTH` (JS `slice`;
the truncation is modeled on characters) and an empty result collapses to
null (the trailing `|| null`). -/
def generateTitle (s : TitleScenario) : Option String :=
  if !s.channelExists then none
  else if !s.decryptOk then none
  else
    match s.fetchResult with
    | none => none
    | some title =>
      if title == "" then none
      else
        let cleaned := cleanTitle title.data
        let sliced := cleaned.take MAX_TITLE_LENGTH
        if sliced.isEmpty then none else some (String.mk sliced)

/-! ### Conversation store (`apps/electron/src/main/lib/conversation-manager.ts`)

The store is the conversations index (`conversations.json`) plus one JSONL
message log per conversation id.  `StoreState` carries both; the JSONL file
system is an association list from conversation id to message list
(`appendFileSync`/`writeFileSync` create the file when missing). -/

/-- `ConversationMeta` from `@proma/shared` as read and written by
`conversation-manager.ts`. -/
structure ConversationMeta where
  id : String
  title : String
  modelId : Option String := none
  channelId : Option String := none
  createdAt : Nat
  updatedAt : Nat
  contextDividers : Option (List String) := none
  contextLength : Option CtxLen := none
  pinned : Option Bool := none
deriving DecidableEq, Repr

/-- The `updates` argument of `updateConversationMeta`
(`Partial<Pick<ConversationMeta, ...>>`): a present field overwrites the
stored one via object spread. -/
structure ConversationMetaUpdates where
  title : Option String := none
  modelId : Option String := none
  channelId : Option String := none
  contextDividers : Option (List String) := none
  contextLength : Option CtxLen := none
  pinned : Option Bool := none
deriving DecidableEq, Repr

/-- Durable store state: the index entries plus the per-conversation JSONL
message logs. -/
structure StoreState where
  index : List ConversationMeta
  logs : List (String × List ChatMessage)
deriving DecidableEq, Repr

/-- Append one line to a conversation's JSONL log (`appendFileSync`: the
file is created when missing). -/
def appendLog : List (String × List ChatMessage) → String → ChatMessage →
    List (String × List ChatMessage)
  | [], id, message => [(id, [message])]
  | (k, l) :: rest, id, message =>
    if k == id then (k, l ++ [message]) :: rest
    else (k, l) :: appendLog rest id message

/-- Overwrite a conversation's JSONL log (`writeFileSync`). -/
def setLog : List (String × List ChatMessage) → String → List ChatMessage →
    List (String × List ChatMessage)
  | [], id, messages => [(id, messages)]
  | (k, l) :: rest, id, messages =>
    if k == id then (k, messages) :: rest
    else (k, l) :: setLog rest id messages

/-- `appendMessage(id, message)`: append one serialized message to the
conversation's JSONL file.  The index file — and with it `updatedAt` — is
not touched by this operation. -/
def appendMessageOp (st : StoreState) (id : String) (message : ChatMessage) : StoreState :=
  { st with logs := appendLog st.logs id message }

/-- `saveConversationMessages(id, messages)`: rewrite the whole JSONL file.
The index is not touched. -/
def saveConversationMessagesOp (st : StoreState) (id : String)
    (messages : List ChatMessage) : StoreState :=
  { st with logs := setLog st.logs id messages }

/-- Object spread `{...existing, ...updates, updatedAt: Date.now()}`. -/
def applyMetaUpdates (existing : ConversationMeta) (updates : ConversationMetaUpdates)
    (now : Nat) : ConversationMeta :=
  { existing with
    title := updates.title.getD existing.title,
    modelId := match updates.modelId with
      | some v => some v
      | none => existing.modelId,
    channelId := match updates.channelId with
      | some v => some v
      | none => existing.channelId,
    contextDividers := match updates.contextDividers with
      | some v => some v
      | none => existing.contextDividers,
    contextLength := match updates.contextLength with
      | some v => some v
      | none => existing.contextLength,
    pinned := match updates.pinned with
      | some v => some v
      | none => existing.pinned,
    updatedAt := now }

/-- `updateConversationMeta(id, updates)`: find the conversation in the
index (throwing when absent), apply the updates, stamp `updatedAt` with the
current clock and write the index back. -/
def updateConversationMetaOp (st : StoreState) (id : String)
    (updates : ConversationMetaUpdates) (now : Nat) : Except String StoreState :=
  match st.index.findIdx? (fun c => c.id == id) with
  | none => Except.error "对话不存在"
  | some idx =>
    match st.index.get? idx with
    | none => Except.error "对话不存在"
    | some existing =>
      Except.ok { st with index := st.index.set idx (applyMetaUpdates existing updates now) }

/-! ### Derived counting helpers -/

/-- Number of `user`-role messages in a list. -/
def userCount (l : List ChatMessage) : Nat :=
  (l.filter (fun msg => msg.role == Role.user)).length

/-- Number of terminal (`complete`/`error`) push events. -/
def countTerminal (events : List PushEvent) : Nat :=
  (events.filter PushEvent.isTerminal).length

/-! ### Concrete fixtures for scenario evaluation -/

/-- Stored history, first user turn of the spec's windowing scenario. -/
def uHi : ChatMessage := { id := "m1", role := Role.user, content := "hi", createdAt := 1 }

/-- Stored history, assistant reply of the windowing scenario. -/
def aHello : ChatMessage :=
  { id := "m2", role := Role.assistant, content := "hello", createdAt := 2 }

/-- The newly sent user message of the windowing scenario, as appended to
the store before `filterHistory` runs. -/
def uQ : ChatMessage := { id := "m3", role := Role.user, content := "what's 2+2?", createdAt := 3 }

/-- A user message carrying id `a` (divider fixture). -/
def cm1 : ChatMessage := { id := "a", role := Role.user, content := "one", createdAt := 1 }

/-- A user message carrying id `b` (divider fixture). -/
def cm2 : ChatMessage := { id := "b", role := Role.user, content := "two", createdAt := 2 }

/-- A JSON object of unknown shape (no field the adapters recognize). -/
def jUnknown : Json := Json.obj [("foo", Json.str "bar")]

/-- A Google part holding plain text. -/
def jTextPart (s : String) : Json := Json.obj [("text", Json.str s)]

/-- A Google SSE frame whose single candidate carries three text parts. -/
def jThreeParts : Json :=
  Json.obj [("candidates", Json.arr [Json.obj [("content",
    Json.obj [("parts", Json.arr [jTextPart "x1", jTextPart "x2", jTextPart "x3"])])]])]

/-- A Google SSE frame carrying one thought part and one text part. -/
def jThoughtAndText : Json :=
  Json.obj [("candidates", Json.arr [Json.obj [("content",
    Json.obj [("parts", Json.arr
      [Json.obj [("text", Json.str "think"), ("thought", Json.bool true)],
       jTextPart "hello"])])]])]

/-- A send execution cancelled mid-stream after one delivered chunk. -/
def sAbort : SendScenario :=
  { channelExists := true, decryptOk := true, appendUserThrows := false,
    events := [StreamEvent.chunk "4"], result := StreamResult.thrown "aborted",
    aborted := true, appendAssistantThrows := false, appendPartialThrows := false,
    userMessage := "what's 2+2?", modelId := "claude", userMsgId := "u1",
    assistantMsgId := "a1", tUser := 10, tAssistant := 11, attachments := [] }

/-- A send execution whose referenced channel does not exist. -/
def sNoChannel : SendScenario :=
  { channelExists := false, decryptOk := true, appendUserThrows := false,
    events := [], result := StreamResult.ok "" "", aborted := false,
    appendAssistantThrows := false, appendPartialThrows := false,
    userMessage := "hi", modelId := "claude", userMsgId := "u1",
    assistantMsgId := "a1", tUser := 10, tAssistant := 11, attachments := [] }

/-- A send execution where the user-message disk append throws. -/
def sAppendFails : SendScenario :=
  { channelExists := true, decryptOk := true, appendUserThrows := true,
    events := [], result := StreamResult.ok "" "", aborted := false,
    appendAssistantThrows := false, appendPartialThrows := false,
    userMessage := "hi", modelId := "claude", userMsgId := "u1",
    assistantMsgId := "a1", tUser := 10, tAssistant := 11, attachments := [] }

/-- A successful title fetch returning a double-quoted title. -/
def tQuoted : TitleScenario :=
  { channelExists := true, decryptOk := true, fetchResult := some "\"My Trip Plan\"" }

/-- Index entry used by the store fixtures. -/
def meta0 : ConversationMeta :=
  { id := "c1", title := "t", createdAt := 1, updatedAt := 5 }

/-- A message appended by the store fixtures. -/
def msgX : ChatMessage := { id := "x", role := Role.user, content := "hello", createdAt := 6 }

/-- Store with one conversation whose log is empty. -/
def st0 : StoreState := { index := [meta0], logs := [("c1", [])] }

/-- `st0` after `updateConversationMeta("c1", {})` at clock 7. -/
def stU : StoreState :=
  { index := [applyMetaUpdates meta0 {} 7], logs := [("c1", [])] }

/-- A Google SSE frame with an empty `candidates` array. -/
def jEmptyCandidates : Json := Json.obj [("candidates", Json.arr [])]

/-!
## Theorems

Helper lemmas first, then one theorem per claim (with witnesses and
counterexamples as required).
-/

/-- Appending the same list on the right preserves the suffix relation. -/
theorem suffix_append_same {α : Type} {l₁ l₂ : List α} (x : List α) (h : l₁ <:+ l₂) :
    l₁ ++ x <:+ l₂ ++ x := by
  obtain ⟨t, ht⟩ := h
  exact ⟨t, by rw [← List.append_assoc, ht]⟩

/-- The reversal of the backward round-collection walk is a suffix of the
reversal of its input: the walk only ever stops early, it never skips. -/
theorem roundTake_reverse_suffix (n : Int) :
    ∀ (rc : Nat) (l : List ChatMessage), (roundTake n rc l).reverse <:+ l.reverse := by
  intro rc l
  induction l generalizing rc with
  | nil => simp [roundTake]
  | cons m rest ih =>
    simp only [roundTake, List.reverse_cons]
    split
    · split
      · exact List.suffix_append rest.reverse [m]
      · rw [List.reverse_cons]
        exact suffix_append_same [m] (ih _)
    · rw [List.reverse_cons]
      exact suffix_append_same [m] (ih _)

/-- Divider trimming returns a suffix of the history. -/
theorem dividerFiltered_suffix (H : List ChatMessage) (D : List String) :
    dividerFiltered H D <:+ H := by
  unfold dividerFiltered
  split
  · exact List.suffix_refl H
  · split
    · exact List.drop_suffix _ _
    · exact List.suffix_refl H

/-- The round-count stage of `filterHistory` returns a suffix of the
divider-trimmed history. -/
theorem filterHistory_suffix_dividerFiltered (H : List ChatMessage) (D : List String)
    (c : Option CtxLen) : filterHistory H D c <:+ dividerFiltered H D := by
  unfold filterHistory
  cases c with
  | none => exact List.suffix_refl _
  | some cl =>
    cases cl with
    | infinite => exact List.suffix_refl _
    | num n =>
      simp only
      split
      · split
        · exact List.nil_suffix
        · have h := roundTake_reverse_suffix n 0 (dividerFiltered H D).reverse
          rwa [List.reverse_reverse] at h
      · exact List.suffix_refl _

/-- The backward walk collects at most `n - rc` further user messages. -/
theorem roundTake_userCount (n : Int) :
    ∀ (l : List ChatMessage) (rc : Nat), (rc : Int) < n →
      userCount (roundTake n rc l) ≤ (n - rc).toNat := by
  intro l
  induction l with
  | nil => intro rc _; simp [roundTake, userCount]
  | cons m rest ih =>
    intro rc h
    by_cases hu : m.role = Role.user
    · by_cases hstop : (rc : Int) + 1 ≥ n
      · simp only [roundTake, if_pos hu, if_pos hstop]
        simp [userCount, List.filter_cons, hu]
        omega
      · simp only [roundTake, if_pos hu, if_neg hstop]
        have := ih (rc + 1) (by omega)
        simp [userCount, List.filter_cons, hu] at this ⊢
        omega
    · simp only [roundTake, if_neg hu]
      have := ih rc h
      simp [userCount, List.filter_cons, hu] at this ⊢
      exact this

/-- `userCount` is invariant under reversal. -/
theorem userCount_reverse (l : List ChatMessage) : userCount l.reverse = userCount l := by
  simp [userCount, List.filter_reverse]

/-- The `onEvent` relay never produces a terminal push event. -/
theorem streamError_not_pushed (evs : List StreamEvent) (e : String) :
    PushEvent.streamError e ∉ pushedStreamEvents evs := by
  simp only [pushedStreamEvents, List.mem_filterMap, not_exists]
  intro a
  cases a <;> simp

/-- The relayed `chunk`/`reasoning` events contain no terminal event. -/
theorem countTerminal_pushed (evs : List StreamEvent) :
    countTerminal (pushedStreamEvents evs) = 0 := by
  induction evs with
  | nil => rfl
  | cons a rest ih =>
    cases a <;> simp [pushedStreamEvents, countTerminal, List.filter_cons,
      PushEvent.isTerminal] at ih ⊢ <;> exact ih

/-- Relayed events followed by one terminal event count exactly one
terminal event. -/
theorem countTerminal_pushed_append_terminal (evs : List StreamEvent) (e : PushEvent)
    (he : e.isTerminal = true) :
    countTerminal (pushedStreamEvents evs ++ [e]) = 1 := by
  have h := countTerminal_pushed evs
  unfold countTerminal at h ⊢
  rw [List.filter_append, List.length_append, h]
  simp [List.filter_cons, he]

/-- The `catch` block emits exactly one terminal event whenever its own
disk append does not throw. -/
theorem handleCatch_terminal (s : SendScenario) (userMsg : ChatMessage) (m : String)
    (hp : s.appendPartialThrows = false) :
    countTerminal (handleCatch s userMsg (pushedStreamEvents s.events) m).events = 1 := by
  unfold handleCatch
  cases ha : s.aborted with
  | true =>
    by_cases hne : accContent s.events = ""
    · have hb : (accContent s.events != "") = false := by simp [hne]
      simp only [hb, Bool.false_eq_true, if_false, if_true]
      exact countTerminal_pushed_append_terminal s.events _ rfl
    · have hb : (accContent s.events != "") = true := by simp [bne_iff_ne, hne]
      simp only [hb, hp, Bool.false_eq_true, if_false, if_true]
      exact countTerminal_pushed_append_terminal s.events _ rfl
  | false =>
    simp only [Bool.false_eq_true, if_false]
    exact countTerminal_pushed_append_terminal s.events _ rfl

/-- C1: with stored history `[user "hi", assistant "hello"]` and
`contextLength = 1`, the send flow first appends the new user message, so
`filterHistory` runs on the three-message history and its backward round
walk stops at the *new* user message: the window is `[user "what's 2+2?"]`
— not the prior round — and, because the adapter appends the current user
message again, the Anthropic message list duplicates it.  This evaluates
the code at the claim's failing input; the claim (and the contract in
`types.ts` that `history` excludes the current user message) is violated. -/
theorem c1_window_duplicates_user_message :
    filterHistory [uHi, aHello, uQ] [] (some (CtxLen.num 1)) = [uQ] ∧
    toAnthropicMessages (filterHistory [uHi, aHello, uQ] [] (some (CtxLen.num 1)))
        "what's 2+2?" [] (fun _ => []) =
      [{ role := AnthropicRole.user, content := AnthropicContent.str "what's 2+2?" },
       { role := AnthropicRole.user, content := AnthropicContent.str "what's 2+2?" }] ∧
    filterHistory [uHi, aHello, uQ] [] (some (CtxLen.num 1)) ≠ [uHi, aHello] := by
  refine ⟨by decide, ?_, by decide⟩
  rfl

/-- C2 (amended): for every history, divider list and integer `n ≥ 0`, the
window contains at most `n` user-role messages, and whenever the *last* id
of the divider list occurs in the history at position `k`, every message of
the window lies strictly after `k` (the window is a suffix of
`H.drop (k+1)`).  The original claim's clause about "the last id in D that
occurs in H" fails when the last divider id is dangling — see the
counterexample. -/
theorem c2_window_bounds (H : List ChatMessage) (D : List String) (n : Int) (hn : 0 ≤ n) :
    userCount (filterHistory H D (some (CtxLen.num n))) ≤ n.toNat ∧
    (∀ d k, D.getLast? = some d →
      H.findIdx? (fun msg => msg.id == d) = some k →
      filterHistory H D (some (CtxLen.num n)) <:+ H.drop (k + 1)) := by
  constructor
  · unfold filterHistory
    simp only [if_pos hn]
    by_cases h0 : n = 0
    · simp [h0, userCount]
    · simp only [if_neg h0]
      rw [userCount_reverse]
      have := roundTake_userCount n (dividerFiltered H D).reverse 0 (by omega)
      simpa using this
  · intro d k hd hk
    have hdf : dividerFiltered H D = H.drop (k + 1) := by
      unfold dividerFiltered
      rw [hd]
      simp only [hk]
    have := filterHistory_suffix_dividerFiltered H D (some (CtxLen.num n))
    rwa [hdf] at this

/-- C2 counterexample: history `[cm1, cm2]` with ids `a`, `b` and dividers
`["a", "zz"]` — the last id of `D` occurring in `H` is `a`, at position 0,
yet the code only looks at `D`'s final id `zz`, finds it dangling, skips
divider trimming, and the window (with `n = 2`) contains `cm1`, which does
not occur strictly after position 0. -/
theorem c2_counterexample :
    (["a", "zz"].filter (fun d => ([cm1, cm2].map ChatMessage.id).contains d)).getLast?
        = some "a" ∧
    [cm1, cm2].findIdx? (fun m => m.id == "a") = some 0 ∧
    cm1 ∈ filterHistory [cm1, cm2] ["a", "zz"] (some (CtxLen.num 2)) ∧
    cm1 ∉ [cm1, cm2].drop (0 + 1) := by
  decide

/-- C2 witness: the amended bound evaluated on a concrete history with a
found divider. -/
theorem c2_witness :
    userCount (filterHistory [cm1, cm2] ["a"] (some (CtxLen.num 1))) ≤ (1 : Int).toNat ∧
    filterHistory [cm1, cm2] ["a"] (some (CtxLen.num 1)) <:+ [cm1, cm2].drop (0 + 1) := by
  have h := c2_window_bounds [cm1, cm2] ["a"] 1 (by decide)
  exact ⟨h.1, h.2 "a" 0 (by decide) (by decide)⟩

/-- C3: when the abort signal caused the stream to throw (and the disk
appends succeed), non-empty accumulated content yields exactly one new
assistant message with `stopped = true` and the accumulated text, plus a
completion event carrying its id; empty accumulated content yields a
completion event with no id and no assistant message; no error event is
emitted in either case. -/
theorem c3_cancellation (s : SendScenario) (m : String)
    (hch : s.channelExists = true) (hd : s.decryptOk = true)
    (hu : s.appendUserThrows = false) (hp : s.appendPartialThrows = false)
    (hr : s.result = StreamResult.thrown m) (ha : s.aborted = true) :
    (accContent s.events ≠ "" →
      (sendMessage s).appended = [mkUserMsg s, mkPartialMsg s] ∧
      (mkPartialMsg s).stopped = true ∧
      (mkPartialMsg s).content = accContent s.events ∧
      (sendMessage s).events =
        pushedStreamEvents s.events ++ [PushEvent.streamComplete (some s.assistantMsgId)]) ∧
    (accContent s.events = "" →
      (sendMessage s).appended = [mkUserMsg s] ∧
      (sendMessage s).events = pushedStreamEvents s.events ++ [PushEvent.streamComplete none]) ∧
    (∀ e, PushEvent.streamError e ∉ (sendMessage s).events) := by
  have hsend : sendMessage s = handleCatch s (mkUserMsg s) (pushedStreamEvents s.events) m := by
    simp [sendMessage, hch, hd, hu, hr]
  refine ⟨?_, ?_, ?_⟩
  · intro hne
    have hb : (accContent s.events != "") = true := by simp [bne_iff_ne, hne]
    simp [hsend, handleCatch, ha, hp, hb, mkPartialMsg]
  · intro he
    have hb : (accContent s.events != "") = false := by simp [he]
    simp [hsend, handleCatch, ha, hb]
  · intro e
    by_cases hne : accContent s.events = ""
    · have hb : (accContent s.events != "") = false := by simp [hne]
      simp [hsend, handleCatch, ha, hb]
      exact streamError_not_pushed s.events e
    · have hb : (accContent s.events != "") = true := by simp [bne_iff_ne, hne]
      simp [hsend, handleCatch, ha, hp, hb]
      exact streamError_not_pushed s.events e

/-- C3 witness: a concrete cancelled turn with one delivered chunk. -/
theorem c3_witness :
    (sendMessage sAbort).appended = [mkUserMsg sAbort, mkPartialMsg sAbort] ∧
    (mkPartialMsg sAbort).stopped = true ∧
    (mkPartialMsg sAbort).content = accContent sAbort.events ∧
    (sendMessage sAbort).events =
      pushedStreamEvents sAbort.events ++ [PushEvent.streamComplete (some "a1")] := by
  have h := c3_cancellation sAbort "aborted" rfl rfl rfl rfl rfl rfl
  exact h.1 (by decide)

/-- C4 (amended): provided the disk appends outside the `try` block do not
throw (the user-message append and the partial-message append inside the
`catch`), every execution of `sendMessage` delivers exactly one terminal
push event.  The original "any failure" claim fails when such an append
throws — see the counterexample. -/
theorem c4_one_terminal_event (s : SendScenario)
    (hu : s.appendUserThrows = false) (hp : s.appendPartialThrows = false) :
    countTerminal (sendMessage s).events = 1 := by
  unfold sendMessage
  cases hch : s.channelExists with
  | false => simp [countTerminal, PushEvent.isTerminal]
  | true =>
    cases hd : s.decryptOk with
    | false => simp [countTerminal, PushEvent.isTerminal]
    | true =>
      simp only [hu, Bool.not_true, Bool.false_eq_true, if_false]
      cases hr : s.result with
      | ok content reasoning =>
        cases haa : s.appendAssistantThrows with
        | true =>
          simp only [if_true]
          exact handleCatch_terminal s (mkUserMsg s) _ hp
        | false =>
          simp only [Bool.false_eq_true, if_false]
          exact countTerminal_pushed_append_terminal s.events _ rfl
      | thrown m =>
        exact handleCatch_terminal s (mkUserMsg s) m hp

/-- C4 counterexample: when the user-message append throws
(`appendMessage` rethrows disk failures and is called outside the `try`
block), the execution rejects with no terminal event at all. -/
theorem c4_counterexample :
    (sendMessage sAppendFails).events = [] ∧
    (sendMessage sAppendFails).threw = true ∧
    countTerminal (sendMessage sAppendFails).events ≠ 1 := by
  decide

/-- C4 witness: the amended property on a concrete configuration-error
execution. -/
theorem c4_witness : countTerminal (sendMessage sNoChannel).events = 1 :=
  c4_one_terminal_event sNoChannel rfl rfl

/-- C5: a missing channel or a failed key decryption yields one error push
event, no store write at all and a normal (non-throwing) return. -/
theorem c5_config_error (s : SendScenario)
    (h : s.channelExists = false ∨ s.decryptOk = false) :
    (sendMessage s).appended = [] ∧ (sendMessage s).threw = false ∧
    ∃ e, (sendMessage s).events = [PushEvent.streamError e] := by
  unfold sendMessage
  cases hch : s.channelExists with
  | false => exact ⟨rfl, rfl, "渠道不存在", rfl⟩
  | true =>
    cases hd : s.decryptOk with
    | false => exact ⟨rfl, rfl, "解密 API Key 失败", rfl⟩
    | true =>
      rcases h with h | h
      · rw [hch] at h; exact absurd h (by simp)
      · rw [hd] at h; exact absurd h (by simp)

/-- C5 witness: a concrete execution with a missing channel. -/
theorem c5_witness :
    (sendMessage sNoChannel).appended = [] ∧ (sendMessage sNoChannel).threw = false ∧
    ∃ e, (sendMessage sNoChannel).events = [PushEvent.streamError e] :=
  c5_config_error sNoChannel (Or.inl rfl)

/-- C6: both adapters' `parseSSELine` are total functions of the
`JSON.parse` outcome (the `try`/`catch` make a parse failure land in the
`none` case); a malformed line (`none`), JSON `null`, and well-formed JSON
of unrecognized shape (wrong `type`, missing `delta`, missing or empty
`candidates`) all yield the empty event list. -/
theorem c6_parse_total (j : Json) :
    anthropicParseSSELine none = [] ∧
    googleParseSSELine none = [] ∧
    anthropicParseSSELine (some Json.null) = [] ∧
    googleParseSSELine (some Json.null) = [] ∧
    (getStr (getField j "type") ≠ some "content_block_delta" →
      anthropicParseSSELine (some j) = []) ∧
    (getField j "delta" = none → anthropicParseSSELine (some j) = []) ∧
    (getField j "candidates" = none → googleParseSSELine (some j) = []) ∧
    (getField j "candidates" = some (Json.arr []) → googleParseSSELine (some j) = []) := by
  refine ⟨rfl, rfl, rfl, rfl, ?_, ?_, ?_, ?_⟩
  · intro h
    unfold anthropicParseSSELine
    have hb : (getStr (getField j "type") == some "content_block_delta") = false := by
      simp [beq_iff_eq, h]
    simp [hb]
  · intro h
    unfold anthropicParseSSELine
    by_cases hb : (getStr (getField j "type") == some "content_block_delta") = true
    · simp [hb, h, getFieldOpt, getStr, truthy]
    · simp [Bool.not_eq_true] at hb
      simp [hb]
  · intro h
    unfold googleParseSSELine
    simp [h, getArr, getFieldOpt]
  · intro h
    unfold googleParseSSELine
    simp [h, getArr, getFieldOpt]

/-- C6 witness: both unrecognized-shape implications discharged at concrete
JSON objects. -/
theorem c6_witness :
    anthropicParseSSELine (some jUnknown) = [] ∧
    googleParseSSELine (some jUnknown) = [] ∧
    googleParseSSELine (some jEmptyCandidates) = [] :=
  ⟨(c6_parse_total jUnknown).2.2.2.2.1 (by decide),
   (c6_parse_total jUnknown).2.2.2.2.2.2.1 rfl,
   (c6_parse_total jEmptyCandidates).2.2.2.2.2.2.2 rfl⟩

/-- C7 counterexample: a single Google SSE frame whose candidate carries
three text parts yields three events — more than the claimed maximum of
two. -/
theorem c7_counterexample :
    googleParseSSELine (some jThreeParts) =
      [StreamEvent.chunk "x1", StreamEvent.chunk "x2", StreamEvent.chunk "x3"] ∧
    (googleParseSSELine (some jThreeParts)).length = 3 :=
  ⟨rfl, rfl⟩

/-- C7 (amended): the Anthropic adapter yields at most one event per line;
the Google adapter yields one event per text-bearing part — possibly more
than two — and a single frame can simultaneously yield a reasoning event
and a visible-text chunk event. -/
theorem c7_event_counts :
    (∀ p : Option Json, (anthropicParseSSELine p).length ≤ 1) ∧
    googleParseSSELine (some jThoughtAndText) =
      [StreamEvent.reasoning "think", StreamEvent.chunk "hello"] := by
  constructor
  · intro p
    unfold anthropicParseSSELine
    split
    · simp
    · dsimp only
      split_ifs
      · split <;> simp
      · split <;> simp
      · simp
      · simp
  · rfl

/-- C8: `generateTitle` returns `null` on a missing channel, a failed
decryption or a failed/empty title fetch; every successful result is at
most `MAX_TITLE_LENGTH` characters; and the response text
`"My Trip Plan"` enclosed in double quotes cleans to `My Trip Plan`. -/
theorem c8_generateTitle (s : TitleScenario) :
    (s.channelExists = false → generateTitle s = none) ∧
    (s.decryptOk = false → generateTitle s = none) ∧
    (s.fetchResult = none → generateTitle s = none) ∧
    (∀ t, generateTitle s = some t → t.length ≤ MAX_TITLE_LENGTH) ∧
    (s.channelExists = true → s.decryptOk = true →
      s.fetchResult = some "\"My Trip Plan\"" → generateTitle s = some "My Trip Plan") := by
  refine ⟨?_, ?_, ?_, ?_, ?_⟩
  · intro h; simp [generateTitle, h]
  · intro h
    unfold generateTitle
    cases s.channelExists <;> simp [h]
  · intro h
    unfold generateTitle
    cases s.channelExists <;> cases s.decryptOk <;> simp [h]
  · intro t ht
    unfold generateTitle at ht
    split at ht
    · simp at ht
    · split at ht
      · simp at ht
      · split at ht
        · simp at ht
        · split at ht
          · simp at ht
          · dsimp only at ht
            split at ht
            · simp at ht
            · injection ht with ht'
              rw [← ht']
              simp [String.length]
  · intro h1 h2 h3
    simp only [generateTitle, h1, h2, h3]
    rfl

/-- C8 witness: the quoted-title scenario evaluated concretely. -/
theorem c8_witness : generateTitle tQuoted = some "My Trip Plan" :=
  (c8_generateTitle tQuoted).2.2.2.2 rfl rfl rfl

/-- C9 counterexample: `appendMessage` mutates the message log but leaves
the index — and with it `updatedAt` — untouched, so `updatedAt` (here 5)
does not strictly increase on that mutation. -/
theorem c9_counterexample :
    (appendMessageOp st0 "c1" msgX).logs ≠ st0.logs ∧
    (appendMessageOp st0 "c1" msgX).index = st0.index ∧
    meta0.updatedAt = 5 ∧
    ((appendMessageOp st0 "c1" msgX).index.map ConversationMeta.updatedAt) = [5] := by
  decide

/-- C9 (amended): `appendMessage` and `saveConversationMessages` do not
change any index entry; `updatedAt` changes only through
`updateConversationMeta`, which stamps it with the mutation clock — a value
strictly greater than the previous one exactly when the clock has advanced
past it. -/
theorem c9_updatedAt (st : StoreState) (id : String) (msg : ChatMessage)
    (msgs : List ChatMessage) (u : ConversationMetaUpdates) (now : Nat) :
    (appendMessageOp st id msg).index = st.index ∧
    (saveConversationMessagesOp st id msgs).index = st.index ∧
    (∀ st' i existing,
      updateConversationMetaOp st id u now = Except.ok st' →
      st.index.findIdx? (fun c => c.id == id) = some i →
      st.index.get? i = some existing →
      ∃ updated, st'.index.get? i = some updated ∧ updated.updatedAt = now ∧
        (existing.updatedAt < now → existing.updatedAt < updated.updatedAt)) := by
  refine ⟨rfl, rfl, ?_⟩
  intro st' i existing hupd hfind hget
  unfold updateConversationMetaOp at hupd
  rw [hfind] at hupd
  simp only [hget] at hupd
  injection hupd with hst'
  refine ⟨applyMetaUpdates existing u now, ?_, rfl, fun h => by simp [applyMetaUpdates]; omega⟩
  rw [← hst']
  have hi : i < st.index.length := (List.get?_eq_some.mp hget).1
  simp [List.getElem?_set_self', hi, List.get?_eq_getElem?]

/-- C9 witness: the update conjunct at a concrete store and clock. -/
theorem c9_witness :
    ∃ updated, stU.index.get? 0 = some updated ∧ updated.updatedAt = 7 ∧
      (meta0.updatedAt < 7 → meta0.updatedAt < updated.updatedAt) :=
  (c9_updatedAt st0 "c1" msgX [] {} 7).2.2 stU 0 meta0 (by rfl) (by rfl) (by rfl)

/-- C10: for every history, divider list and context-length setting
(finite, `'infinite'` or unset), `filterHistory` returns a contiguous
suffix of the history — hence it preserves relative order, introduces no
duplicate or modified message, and never includes a message without every
later one. -/
theorem c10_filterHistory_isSuffix (H : List ChatMessage) (D : List String)
    (c : Option CtxLen) : filterHistory H D c <:+ H :=
  (filterHistory_suffix_dividerFiltered H D c).trans (dividerFiltered_suffix H D)

end Proma
